import Mathlib

/-!
Shallow embedding of the securequery-analytics policy-enforcing query
gateway: reference extraction (`parse_query`), the authorization decision
(`check_access`, `validate_permissions`), grant mutation (`grant_access`),
field encryption and masking (`encrypt_value`, `decrypt_value`,
`mask_value`), and the orchestrating gateway (`execute_query`).

The embedding follows src/src/engine/query_engine.py, src/src/access/auth.py
and src/src/security/encryption.py.  External collaborators (the sqlparse
tokenizer, the Fernet cipher, PBKDF2, base64, and the relational store) are
modelled as explicit data, as documented at each definition.
-/

/-- Token type tags of the external sqlparse lexer, as inspected by
`parse_query` (`ttype is DML`, `ttype is Keyword`, `ttype is None`). -/
inductive TType where
  | dml
  | keyword
  | whitespace
  | wildcard
  | punctuation
  | nameTok
  | otherTok
deriving DecidableEq

/-- Modelled from the spec: a statement-level token of the external
sqlparse library.  `plain` is a leaf token with a non-None ttype;
`ident` is an `Identifier` group (ttype None) carrying the value of
`get_real_name()`; `identList` is an `IdentifierList` group carrying the
real names of its `get_identifiers()`; `group` is any other ttype-None
group (for example a WHERE clause), carrying its string rendering. -/
inductive Tok where
  | plain (tt : TType) (value : String)
  | ident (realName : String) (raw : String)
  | identList (names : List String) (raw : String)
  | group (raw : String)
deriving DecidableEq

/-- Python str.upper, written over the character list so that it
evaluates inside the kernel. -/
def upperString (s : String) : String :=
  String.mk (s.data.map Char.toUpper)

/-- Python str.strip (leading and trailing whitespace removal), written
over the character list so that it evaluates inside the kernel. -/
def trimString (s : String) : String :=
  String.mk
    (((s.data.dropWhile (fun c => c == ' ')).reverse.dropWhile
      (fun c => c == ' ')).reverse)

/-- Statement kind: the value of the first DML-typed token, uppercased
(QueryEngine.parse_query, first loop). -/
def stmtTypeOf : List Tok → Option String
  | [] => none
  | .plain .dml v :: _ => some (upperString v)
  | .plain _ _ :: rest => stmtTypeOf rest
  | .ident _ _ :: rest => stmtTypeOf rest
  | .identList _ _ :: rest => stmtTypeOf rest
  | .group _ :: rest => stmtTypeOf rest

/-- FROM-clause table extraction (QueryEngine.parse_query, second loop).
The boolean is the `from_seen` flag; a Keyword token after FROM breaks the
loop; Identifier and IdentifierList tokens contribute their real names. -/
def extractTables : List Tok → Bool → List String
  | [], _ => []
  | .identList names _ :: rest, true => names ++ extractTables rest true
  | .ident n _ :: rest, true => n :: extractTables rest true
  | .plain tt _ :: rest, true =>
      if tt == .keyword then [] else extractTables rest true
  | .group _ :: rest, true => extractTables rest true
  | .plain tt v :: rest, false =>
      if tt == .keyword && upperString v == "FROM" then extractTables rest true
      else extractTables rest false
  | .ident _ _ :: rest, false => extractTables rest false
  | .identList _ _ :: rest, false => extractTables rest false
  | .group _ :: rest, false => extractTables rest false

/-- SELECT-clause column extraction (QueryEngine.parse_query, third loop).
The boolean is the `select_seen` flag.  Note the faithful transcription of
the wildcard branch: only a token whose ttype is None and whose stripped
text is "*" is recorded as the wildcard marker. -/
def extractCols : List Tok → Bool → List String
  | [], _ => []
  | .plain .dml v :: rest, selectSeen =>
      if upperString v == "SELECT" then extractCols rest true
      else extractCols rest selectSeen
  | .plain .keyword v :: rest, selectSeen =>
      if selectSeen then
        if upperString v == "FROM" then [] else extractCols rest selectSeen
      else extractCols rest selectSeen
  | .plain _ _ :: rest, selectSeen => extractCols rest selectSeen
  | .identList names _ :: rest, selectSeen =>
      if selectSeen then
        names.filter (fun n => n != "*") ++ extractCols rest selectSeen
      else extractCols rest selectSeen
  | .ident n _ :: rest, selectSeen =>
      if selectSeen then
        if n == "*" then extractCols rest selectSeen
        else n :: extractCols rest selectSeen
      else extractCols rest selectSeen
  | .group raw :: rest, selectSeen =>
      if selectSeen then
        if trimString raw == "*" then "*" :: extractCols rest selectSeen
        else extractCols rest selectSeen
      else extractCols rest selectSeen

/-- Result of QueryEngine.parse_query: the dict with keys
type / tables / columns. -/
structure ParseResult where
  stmtType : Option String
  tables : List String
  columns : List String
deriving DecidableEq

/-- QueryEngine.parse_query over an sqlparse token stream. -/
def parse_query (toks : List Tok) : ParseResult :=
  let st := stmtTypeOf toks
  { stmtType := st
    tables := extractTables toks false
    columns := if st == some "SELECT" then extractCols toks false else [] }

/-- Row of the system_users table, as read by AccessManager.get_user. -/
structure UserRec where
  userId : Nat
  username : String
  role : String
deriving DecidableEq

/-- Row of the access_control table.  `columnName = none` models SQL NULL
(a table-wide grant). -/
structure GrantRec where
  accessId : Nat
  userId : Nat
  tableName : String
  columnName : Option String
  accessLevel : String
  grantedAt : Nat
deriving DecidableEq

/-- Modelled from the spec: a Fernet authenticated-encryption token of the
external cryptography library.  Decryption succeeds exactly when performed
with the key the token was produced under; with any other key it fails
(InvalidToken), which models the authentication property the spec requires
of FieldCipher.  The opaque byte-level format is not modelled. -/
structure FernetCt (α : Type) where
  key : Nat
  payload : α
deriving DecidableEq

/-- Modelled from the spec: Fernet encryption under a data-encryption key. -/
def fernetEncrypt (k : Nat) (m : α) : FernetCt α := ⟨k, m⟩

/-- Modelled from the spec: Fernet decryption; fails with InvalidToken
unless the key matches the one the token was created with. -/
def fernetDecrypt (k : Nat) (ct : FernetCt α) : Except String α :=
  if ct.key == k then .ok ct.payload else .error "InvalidToken"

/-- Modelled from the spec: PBKDF2-HMAC-SHA256 key derivation
(EncryptionManager._derive_key_from_passphrase).  Modelled as a
deterministic function of the passphrase and the salt; the iterated
hashing itself is external library code. -/
def kdf (passphrase : String) (salt : Nat) : Nat :=
  passphrase.length * 1000003 + salt

/-- Row of the master_keys table: the stored blob is
base64(salt || Fernet(kdf(passphrase, salt), columnKey))
(EncryptionManager.generate_column_key).  The salt and the wrapped key are
kept structurally; the base64 transport encoding is modelled as the
identity codec. -/
structure KeyRec where
  tableName : String
  columnName : String
  salt : Nat
  wrapped : FernetCt Nat
deriving DecidableEq

/-- A database value: either a plain text rendering or an encrypted
Fernet token (the base64 string stored in an encrypted column). -/
inductive DbVal where
  | str (s : String)
  | blob (ct : FernetCt String)
deriving DecidableEq

/-- String rendering str(value) of a database value.  For a blob the
rendering is the opaque base64 text of the token; its exact characters are
not modelled, only that it is some deterministic string. -/
def dbValStr : DbVal → String
  | .str s => s
  | .blob _ => "gAAAAAtoken"

/-- A cell of a result row; `none` models SQL NULL / Python None. -/
abbrev Cell := Option DbVal

/-- A result row as returned by the datastore driver: an ordered
association list of column name to value (psycopg2 RealDictRow). -/
abbrev Row := List (String × Cell)

/-- Schema entry of a datastore table (DatabaseManager.get_table_schema:
column names in ordinal position order). -/
structure TableRec where
  name : String
  cols : List String
deriving DecidableEq

/-- The visible state of the system: users, grants and key records in the
datastore, the datastore schema, the master passphrase, the datastore's
response to the statement under test (Modelled from the spec: the external
Datastore capability `execute`), the next SERIAL access_id, and the
current timestamp. -/
structure Env where
  users : List UserRec
  grants : List GrantRec
  keys : List KeyRec
  tables : List TableRec
  passphrase : String
  dbOutcome : Except String (List Row)
  nextAccessId : Nat
  now : Nat

/-- AccessManager.get_user: first system_users row with this username. -/
def get_user (env : Env) (username : String) : Option UserRec :=
  env.users.find? (fun u => u.username == username)

/-- Grant-row match used by AccessManager.grant_access and revoke_access:
`column_name = %s OR (column_name IS NULL AND %s IS NULL)`, which is exact
equality of the optional column. -/
def grantMatches (uid : Nat) (t : String) (col : Option String)
    (g : GrantRec) : Bool :=
  g.userId == uid && g.tableName == t && g.columnName == col

/-- AccessManager.check_access: admins always pass; otherwise a
column-specific grant (only consulted when a non-empty column name is
given, matching Python truthiness of `if column_name:`) or a table-wide
grant (column IS NULL). -/
def check_access (env : Env) (username : String) (t : String)
    (col : Option String) : Bool :=
  match get_user env username with
  | none => false
  | some u =>
    if u.role == "admin" then true
    else
      let colHit :=
        match col with
        | some c =>
          if c == "" then false
          else env.grants.any (fun g => grantMatches u.userId t (some c) g)
        | none => false
      if colHit then true
      else env.grants.any (fun g => grantMatches u.userId t none g)

/-- AccessManager.grant_access: unknown user raises (`none`); otherwise
the first matching access_control row is updated in place (new level,
refreshed timestamp), else a fresh row is inserted with the next SERIAL
id and the current timestamp as its default. -/
def grant_access (env : Env) (username : String) (t : String)
    (col : Option String) (level : String) : Option Env :=
  match get_user env username with
  | none => none
  | some u =>
    match env.grants.find? (grantMatches u.userId t col) with
    | some g0 =>
      some { env with
        grants := env.grants.map (fun g =>
          if g.accessId == g0.accessId then
            { g with accessLevel := level, grantedAt := env.now }
          else g) }
    | none =>
      some { env with
        grants := env.grants ++
          [{ accessId := env.nextAccessId, userId := u.userId,
             tableName := t, columnName := col, accessLevel := level,
             grantedAt := env.now }],
        nextAccessId := env.nextAccessId + 1 }

/-- DatabaseManager.table_exists: existence in information_schema. -/
def table_exists (env : Env) (t : String) : Bool :=
  env.tables.any (fun r => r.name == t)

/-- QueryEngine.get_table_columns via DatabaseManager.get_table_schema:
column names of the table, empty when the table is unknown. -/
def get_table_columns (env : Env) (t : String) : List String :=
  match env.tables.find? (fun r => r.name == t) with
  | none => []
  | some r => r.cols

/-- EncryptionManager.get_column_key: look up the master_keys row for the
pair, re-derive the wrap key from the stored salt and the passphrase, and
unwrap; fails when no row exists or when unwrapping fails. -/
def get_column_key (env : Env) (t : String) (c : String) :
    Except String Nat :=
  match env.keys.find? (fun r => r.tableName == t && r.columnName == c) with
  | none => .error ("no encryption key found for " ++ t ++ "." ++ c)
  | some r => fernetDecrypt (kdf env.passphrase r.salt) r.wrapped

/-- EncryptionManager.is_column_encrypted: a master_keys row exists. -/
def is_column_encrypted (env : Env) (t : String) (c : String) : Bool :=
  env.keys.any (fun r => r.tableName == t && r.columnName == c)

/-- EncryptionManager.encrypt_value: None passes through; otherwise the
column key is fetched and str(value) is Fernet-encrypted under it (the
base64 rendering of the token is the blob itself). -/
def encrypt_value (env : Env) (v : Cell) (t : String) (c : String) :
    Except String Cell :=
  match v with
  | none => .ok none
  | some dv =>
    match get_column_key env t c with
    | .error e => .error e
    | .ok k => .ok (some (.blob (fernetEncrypt k (dbValStr dv))))

/-- EncryptionManager.decrypt_value: None passes through; otherwise the
column key is fetched and the token decrypted; a plain (non-token) value
or a key mismatch fails with InvalidToken. -/
def decrypt_value (env : Env) (v : Cell) (t : String) (c : String) :
    Except String Cell :=
  match v with
  | none => .ok none
  | some dv =>
    match get_column_key env t c with
    | .error e => .error e
    | .ok k =>
      match dv with
      | .blob ct =>
        match fernetDecrypt k ct with
        | .error e => .error e
        | .ok m => .ok (some (.str m))
      | .str _ => .error "InvalidToken"

/-- EncryptionManager.mask_value on the character list of str(value):
full masking replaces every character with a star; partial masking keeps
the last four characters unless the value has at most four characters, in
which case everything is masked; any other mask type returns the value
unchanged. -/
def maskChars (s : List Char) (maskType : String) : List Char :=
  if maskType == "full" then List.replicate s.length '*'
  else if maskType == "partial" then
    if s.length ≤ 4 then List.replicate s.length '*'
    else List.replicate (s.length - 4) '*' ++ s.drop (s.length - 4)
  else s

/-- EncryptionManager.mask_value: None passes through, otherwise the
masked rendering of str(value). -/
def mask_value (v : Cell) (maskType : String) : Cell :=
  match v with
  | none => none
  | some dv => some (.str (String.mk (maskChars (dbValStr dv).data maskType)))

/-- Outcome of QueryEngine.validate_permissions. -/
structure Validation where
  allowed : Bool
  reason : String
  deniedItems : List String
deriving DecidableEq

/-- Table-access denial items collected by the first loop of
QueryEngine.validate_permissions, in table order: a missing table is
reported and skipped; an existing table without access is reported. -/
def tableDenials (env : Env) (username : String) : List String → List String
  | [] => []
  | t :: ts =>
    (if table_exists env t then
      (if check_access env username t none then []
       else ["no access to table \x27" ++ t ++ "\x27"])
     else ["table \x27" ++ t ++ "\x27 does not exist"]) ++
    tableDenials env username ts

/-- Column-access denial items for one table, in column order
(inner loop of QueryEngine.validate_permissions). -/
def columnDenialsFor (env : Env) (username : String) (t : String) :
    List String → List String
  | [] => []
  | c :: cs =>
    (if check_access env username t (some c) then []
     else ["no access to column \x27" ++ t ++ "." ++ c ++ "\x27"]) ++
    columnDenialsFor env username t cs

/-- Column-access denial items over all tables (outer loop of the
column check of QueryEngine.validate_permissions). -/
def columnDenials (env : Env) (username : String) (columns : List String) :
    List String → List String
  | [] => []
  | t :: ts =>
    columnDenialsFor env username t columns ++
    columnDenials env username columns ts

/-- QueryEngine.validate_permissions: unknown user denies immediately;
admins are allowed unconditionally; otherwise table denials are collected
for every referenced table and, when concrete columns were requested
(non-empty and not containing the wildcard marker), column denials for
every (table, column) pair; the decision is allow exactly when no denial
item was collected. -/
def validate_permissions (env : Env) (username : String)
    (tables : List String) (columns : List String) : Validation :=
  match get_user env username with
  | none =>
    { allowed := false
      reason := "user \x27" ++ username ++ "\x27 does not exist"
      deniedItems := [] }
  | some u =>
    if u.role == "admin" then
      { allowed := true, reason := "admin has full access", deniedItems := [] }
    else
      let denied :=
        tableDenials env username tables ++
        (if columns ≠ [] ∧ "*" ∉ columns then
          columnDenials env username columns tables
         else [])
      if denied ≠ [] then
        { allowed := false
          reason := "insufficient permissions"
          deniedItems := denied }
      else
        { allowed := true, reason := "access granted", deniedItems := [] }

/-- Wildcard expansion step of QueryEngine.execute_query: when the parsed
column list contains the wildcard marker, it is replaced by the
concatenated schema columns of every referenced table. -/
def expandAll (env : Env) : List String → List String
  | [] => []
  | t :: ts => get_table_columns env t ++ expandAll env ts

/-- Column list actually passed to validation by
QueryEngine.execute_query, after wildcard expansion. -/
def expandedColumns (env : Env) (p : ParseResult) : List String :=
  if "*" ∈ p.columns then expandAll env p.tables else p.columns

/-- The validation QueryEngine.execute_query performs for a parsed
statement. -/
def gatewayValidation (env : Env) (username : String) (toks : List Tok) :
    Validation :=
  let p := parse_query toks
  validate_permissions env username p.tables (expandedColumns env p)

/-- First table of the FROM list for which the column is registered as
encrypted (the `for table in tables ... break` loop of
QueryEngine.execute_query). -/
def firstEncTable (env : Env) (tables : List String) (c : String) :
    Option String :=
  tables.find? (fun t => is_column_encrypted env t c)

/-- Per-cell transformation of QueryEngine.execute_query: if some
referenced table has the column registered as encrypted, decrypt for a
user with column-or-table access (substituting the sentinel on any
decryption failure), mask partially otherwise; unregistered columns pass
through unchanged. -/
def transformCell (env : Env) (username : String) (tables : List String)
    (c : String) (value : Cell) : Cell :=
  match firstEncTable env tables c with
  | none => value
  | some t =>
    if check_access env username t (some c) then
      match decrypt_value env value t c with
      | .ok v => v
      | .error _ => some (.str "[decryption error]")
    else mask_value value "partial"

/-- Cell lookup `row[col_name]`; `none` models a KeyError. -/
def lookupCell (row : Row) (c : String) : Option Cell :=
  match row.find? (fun p => p.1 == c) with
  | none => none
  | some p => some p.2

/-- Row transformation of QueryEngine.execute_query: every column name of
the first result row is looked up and transformed; a missing key raises
(KeyError), caught by the surrounding try as an execution failure. -/
def transformRow (env : Env) (username : String) (tables : List String)
    (row : Row) : List String → Except String Row
  | [] => .ok []
  | c :: cs =>
    match lookupCell row c with
    | none => .error ("KeyError: \x27" ++ c ++ "\x27")
    | some v =>
      match transformRow env username tables row cs with
      | .error e => .error e
      | .ok rest => .ok ((c, transformCell env username tables c v) :: rest)

/-- All-rows transformation of QueryEngine.execute_query. -/
def transformRows (env : Env) (username : String) (tables : List String)
    (cols : List String) : List Row → Except String (List Row)
  | [] => .ok []
  | r :: rs =>
    match transformRow env username tables r cols with
    | .error e => .error e
    | .ok r2 =>
      match transformRows env username tables cols rs with
      | .error e => .error e
      | .ok rest => .ok (r2 :: rest)

/-- Column names of the result set: the keys of the first returned row. -/
def columnNamesOf (rows : List Row) : List String :=
  (rows.headD []).map Prod.fst

/-- Result dict of QueryEngine.execute_query.  `deniedItems = some l`
models the presence of the denied_items key. -/
structure QueryResult where
  success : Bool
  data : List Row
  message : String
  columns : List String
  deniedItems : Option (List String)
deriving DecidableEq

/-- A gateway outcome together with whether the statement itself was
submitted to the datastore (`self.db.execute_query(sql, fetch=True)`). -/
structure ExecOutcome where
  result : QueryResult
  dbExecuted : Bool
deriving DecidableEq

/-- QueryEngine.execute_query.  The statement argument is `none` when the
external sqlparse front end raises on the raw text (empty statement list),
which the code catches and reports as a parse failure; otherwise it is the
sqlparse token stream of the single parsed statement.  The datastore's
response to the statement is `env.dbOutcome` (error models a raised
datastore exception). -/
def execute_query (env : Env) (username : String)
    (sqlToks : Option (List Tok)) : ExecOutcome :=
  match sqlToks with
  | none =>
    ⟨{ success := false, data := [], message := "failed to parse query"
       columns := [], deniedItems := none }, false⟩
  | some toks =>
    let p := parse_query toks
    let validation := gatewayValidation env username toks
    if validation.allowed then
      match env.dbOutcome with
      | .error e =>
        ⟨{ success := false, data := []
           message := "query execution failed: " ++ e
           columns := [], deniedItems := none }, true⟩
      | .ok results =>
        if results.isEmpty then
          ⟨{ success := true, data := []
             message := "query executed successfully, no results"
             columns := [], deniedItems := none }, true⟩
        else
          match transformRows env username p.tables (columnNamesOf results)
              results with
          | .error e =>
            ⟨{ success := false, data := []
               message := "query execution failed: " ++ e
               columns := [], deniedItems := none }, true⟩
          | .ok out =>
            ⟨{ success := true, data := out
               message := "query executed successfully, " ++
                 toString out.length ++ " rows returned"
               columns := columnNamesOf results, deniedItems := none }, true⟩
    else
      ⟨{ success := false, data := [], message := validation.reason
         columns := [], deniedItems := some validation.deniedItems }, false⟩

/-- Modelled from the spec: sqlparse statement tokens of
"SELECT a, b FROM t" (DML, whitespace, IdentifierList of a and b,
whitespace, Keyword FROM, whitespace, Identifier t). -/
def tokensSelectAB : List Tok :=
  [.plain .dml "SELECT", .plain .whitespace " ",
   .identList ["a", "b"] "a, b", .plain .whitespace " ",
   .plain .keyword "FROM", .plain .whitespace " ", .ident "t" "t"]

/-- Modelled from the spec: sqlparse statement tokens of
"SELECT * FROM t".  The lexer tags a bare star with ttype Wildcard
(sqlparse SQL_REGEX), and statement-level grouping leaves it as a plain
token, not an Identifier group. -/
def tokensSelectStar : List Tok :=
  [.plain .dml "SELECT", .plain .whitespace " ",
   .plain .wildcard "*", .plain .whitespace " ",
   .plain .keyword "FROM", .plain .whitespace " ", .ident "t" "t"]

/-- Modelled from the spec: sqlparse statement tokens of
"SELECT name, ssn FROM employees". -/
def tokensNameSsn : List Tok :=
  [.plain .dml "SELECT", .plain .whitespace " ",
   .identList ["name", "ssn"] "name, ssn", .plain .whitespace " ",
   .plain .keyword "FROM", .plain .whitespace " ",
   .ident "employees" "employees"]

/-- Modelled from the spec: sqlparse statement tokens of the malformed
input "this is not sql" (Identifier, Keyword IS, Keyword NOT,
Identifier); it contains no DML token and no FROM keyword, so extraction
finds no tables. -/
def tokensMalformed : List Tok :=
  [.ident "this" "this", .plain .whitespace " ",
   .plain .keyword "IS", .plain .whitespace " ",
   .plain .keyword "NOT", .plain .whitespace " ",
   .ident "sql" "sql"]

/-- Modelled from the spec: sqlparse statement tokens of
"SELECT c, d FROM t". -/
def tokensSelectCD : List Tok :=
  [.plain .dml "SELECT", .plain .whitespace " ",
   .identList ["c", "d"] "c, d", .plain .whitespace " ",
   .plain .keyword "FROM", .plain .whitespace " ", .ident "t" "t"]

/-- Scenario state for the analyst scenario of the spec: alice is an
analyst with a table-wide grant on employees and a column grant on
employees.salary; employees.ssn is secured (wrapped under the master
passphrase); the datastore returns one row with an encrypted ssn. -/
def envScenario : Env :=
  { users := [⟨1, "alice", "analyst"⟩]
    grants := [⟨1, 1, "employees", none, "read", 10⟩,
               ⟨2, 1, "employees", some "salary", "read", 11⟩]
    keys := [⟨"employees", "ssn", 5, ⟨kdf "master" 5, 42⟩⟩]
    tables := [⟨"employees",
      ["employee_id", "name", "email", "ssn", "salary", "department"]⟩]
    passphrase := "master"
    dbOutcome := .ok [[("name", some (.str "john smith")),
                       ("ssn", some (.blob ⟨42, "123-45-6789"⟩))]]
    nextAccessId := 3
    now := 100 }

/-- State for the malformed-input run: alice is a known analyst, no
grants, no secured columns, no tables; the datastore rejects the raw
text with a syntax error. -/
def envMalformed : Env :=
  { users := [⟨1, "alice", "analyst"⟩]
    grants := []
    keys := []
    tables := []
    passphrase := "master"
    dbOutcome := .error "syntax error"
    nextAccessId := 1
    now := 0 }

/-- State for the denial witness: bob is a viewer with no grants, and the
referenced table does not exist in the datastore. -/
def envDenial : Env :=
  { users := [⟨2, "bob", "viewer"⟩]
    grants := []
    keys := []
    tables := []
    passphrase := "master"
    dbOutcome := .ok []
    nextAccessId := 1
    now := 0 }

/-- State for the authorization-law witness: bob is an analyst holding a
table-wide grant on docs. -/
def envTableGrant : Env :=
  { users := [⟨2, "bob", "analyst"⟩]
    grants := [⟨1, 2, "docs", none, "read", 1⟩]
    keys := []
    tables := [⟨"docs", ["title", "body"]⟩]
    passphrase := "master"
    dbOutcome := .ok []
    nextAccessId := 2
    now := 0 }

/-- State for the decryption-failure witness: carol is an analyst with a
table-wide grant on t; t.c is secured; the datastore returns two rows, the
first carrying a tampered token for c (created under a different key). -/
def envDecFail : Env :=
  { users := [⟨3, "carol", "analyst"⟩]
    grants := [⟨1, 3, "t", none, "read", 1⟩]
    keys := [⟨"t", "c", 1, ⟨kdf "p" 1, 7⟩⟩]
    tables := [⟨"t", ["c", "d"]⟩]
    passphrase := "p"
    dbOutcome := .ok [[("c", some (.blob ⟨999, "x"⟩)),
                       ("d", some (.str "plain"))],
                      [("c", none), ("d", some (.str "y"))]]
    nextAccessId := 2
    now := 0 }

/-- State for the upsert witness: dave is an analyst that already holds a
read grant on docs.title. -/
def envGrantW : Env :=
  { users := [⟨1, "dave", "analyst"⟩]
    grants := [⟨5, 1, "docs", some "title", "read", 3⟩]
    keys := []
    tables := [⟨"docs", ["title", "body"]⟩]
    passphrase := "master"
    dbOutcome := .ok []
    nextAccessId := 6
    now := 50 }

/-- C5 (code_bug evaluation): extraction of "SELECT a, b FROM t" yields
tables = [t], columns = [a, b] and no wildcard marker, exactly as the
claim states; but extraction of "SELECT * FROM t" yields an EMPTY column
list with NO wildcard marker recorded: the star is lexed with ttype
Wildcard, while parse_query only records a star token whose ttype is
None, so the wildcard flag the claim requires is never set. -/
theorem parse_query_extraction_eval :
    parse_query tokensSelectAB =
      { stmtType := some "SELECT", tables := ["t"], columns := ["a", "b"] } ∧
    parse_query tokensSelectStar =
      { stmtType := some "SELECT", tables := ["t"], columns := [] } ∧
    ("*" ∈ (parse_query tokensSelectStar).columns) = False := by
  refine ⟨by decide, by decide, by decide⟩

/-- C1 (counterexample): a malformed input from which extraction finds no
tables ("this is not sql", parsed, no DML and no FROM) is nevertheless
submitted to the datastore by execute_query for an existing non-admin
principal: validation passes vacuously over the empty table list, the
statement is executed, and only the datastore's own error turns the
outcome into a failure. -/
theorem execute_query_malformed_executes_cex :
    (parse_query tokensMalformed).tables = [] ∧
    (execute_query envMalformed "alice" (some tokensMalformed)).dbExecuted
      = true ∧
    (execute_query envMalformed "alice"
      (some tokensMalformed)).result.success = false := by
  refine ⟨by decide, by decide, by decide⟩

/-- C2 (counterexample): in the spec scenario (analyst alice with a
table-wide grant on employees and a column grant on employees.salary only,
employees.ssn secured), running "SELECT name, ssn FROM employees" returns
success = true with no denied_items key, not the denial the claim states:
check_access lets the table-wide grant inherit to every column. -/
theorem scenario_ssn_denied_cex :
    (execute_query envScenario "alice" (some tokensNameSsn)).result.success
      = true ∧
    (execute_query envScenario "alice"
      (some tokensNameSsn)).result.deniedItems = none := by
  refine ⟨by decide, by decide⟩

/-- C2 (amended): in that scenario the gateway allows the query — the
table-wide grant on employees inherits to ssn — executes it, and returns
the row with the secured ssn decrypted for the analyst. -/
theorem scenario_ssn_amended :
    execute_query envScenario "alice" (some tokensNameSsn) =
      ⟨{ success := true
         data := [[("name", some (.str "john smith")),
                   ("ssn", some (.str "123-45-6789"))]]
         message := "query executed successfully, 1 rows returned"
         columns := ["name", "ssn"]
         deniedItems := none }, true⟩ := by
  decide

/-- When extraction finds no tables, validation collects no denial items
for an existing principal, so the decision is allow. -/
theorem gatewayValidation_allowed_of_no_tables (env : Env)
    (username : String) (toks : List Tok) (u : UserRec)
    (hu : get_user env username = some u)
    (ht : (parse_query toks).tables = []) :
    (gatewayValidation env username toks).allowed = true := by
  simp only [gatewayValidation, validate_permissions, hu, ht]
  split
  · rfl
  · simp [tableDenials, columnDenials]

/-- C1 (amended): when the external parser raises on the raw text,
execute_query returns a failure and never submits the statement to the
datastore; but when the text parses without error to an EMPTY table list
(e.g. malformed SQL with no recognizable FROM clause), the gateway does
not fail closed — for any existing principal validation passes vacuously
and the statement IS submitted to the datastore. -/
theorem execute_query_fail_closed_amended :
    (∀ (env : Env) (username : String),
        (execute_query env username none).result.success = false ∧
        (execute_query env username none).dbExecuted = false) ∧
    (∀ (env : Env) (username : String) (toks : List Tok) (u : UserRec),
        get_user env username = some u →
        (parse_query toks).tables = [] →
        (execute_query env username (some toks)).dbExecuted = true) := by
  constructor
  · intro env username
    exact ⟨rfl, rfl⟩
  · intro env username toks u hu ht
    have hv := gatewayValidation_allowed_of_no_tables env username toks u hu ht
    simp only [execute_query, hv, if_true]
    cases hdb : env.dbOutcome with
    | error e => rfl
    | ok results =>
      by_cases hres : results.isEmpty
      · simp [hres]
      · simp only [hres, Bool.false_eq_true, if_false]
        cases htr : transformRows env username (parse_query toks).tables
            (columnNamesOf results) results with
        | error e => rfl
        | ok out => rfl

/-- C1 (witness for the amended claim): the parse-failure half and the
fail-open half, instantiated at the malformed statement against the state
where alice is a known analyst. -/
theorem execute_query_fail_closed_amended_witness :
    ((execute_query envMalformed "alice" none).result.success = false ∧
      (execute_query envMalformed "alice" none).dbExecuted = false) ∧
    (execute_query envMalformed "alice" (some tokensMalformed)).dbExecuted
      = true :=
  ⟨execute_query_fail_closed_amended.1 envMalformed "alice",
   execute_query_fail_closed_amended.2 envMalformed "alice" tokensMalformed
     ⟨1, "alice", "analyst"⟩ (by decide) (by decide)⟩

/-- C6: whenever validation denies the parsed statement, execute_query
returns a failure carrying the complete denied-items list and the denial
message, and the statement is never submitted to the datastore. -/
theorem execute_query_denial_no_execution (env : Env) (username : String)
    (toks : List Tok)
    (hv : (gatewayValidation env username toks).allowed = false) :
    execute_query env username (some toks) =
      ⟨{ success := false
         data := []
         message := (gatewayValidation env username toks).reason
         columns := []
         deniedItems := some (gatewayValidation env username toks).deniedItems },
       false⟩ := by
  simp only [execute_query, hv, Bool.false_eq_true, if_false]

/-- C6 (witness): bob the viewer running "SELECT a, b FROM t" against a
state without table t is denied with every collected reason itemized, and
the statement is not executed. -/
theorem execute_query_denial_no_execution_witness :
    execute_query envDenial "bob" (some tokensSelectAB) =
      ⟨{ success := false
         data := []
         message := "insufficient permissions"
         columns := []
         deniedItems := some ["table \x27t\x27 does not exist",
           "no access to column \x27t.a\x27",
           "no access to column \x27t.b\x27"] }, false⟩ := by
  rw [execute_query_denial_no_execution envDenial "bob" tokensSelectAB
    (by decide)]
  decide

/-- C8: for every state in which the column key of (t, c) is stored and
unwrappable, decrypting the encryption of any plaintext s under that
column returns s again. -/
theorem decrypt_encrypt_roundtrip (env : Env) (t c : String) (k : Nat)
    (s : String) (hk : get_column_key env t c = .ok k) :
    encrypt_value env (some (.str s)) t c =
      .ok (some (.blob (fernetEncrypt k s))) ∧
    decrypt_value env (some (.blob (fernetEncrypt k s))) t c =
      .ok (some (.str s)) := by
  constructor
  · simp [encrypt_value, hk, dbValStr]
  · simp [decrypt_value, hk, fernetEncrypt, fernetDecrypt]

/-- C8 (witness): the round trip at the stored employees.ssn key of the
scenario state, for the plaintext "123-45-6789". -/
theorem decrypt_encrypt_roundtrip_witness :
    encrypt_value envScenario (some (.str "123-45-6789")) "employees" "ssn"
      = .ok (some (.blob (fernetEncrypt 42 "123-45-6789"))) ∧
    decrypt_value envScenario
      (some (.blob (fernetEncrypt 42 "123-45-6789"))) "employees" "ssn"
      = .ok (some (.str "123-45-6789")) :=
  decrypt_encrypt_roundtrip envScenario "employees" "ssn" 42 "123-45-6789"
    rfl

/-- C10: for every non-None value and every mask type other than partial
and full, mask_value returns the str rendering of the value unchanged —
an unrecognized masking mode silently yields the original value. -/
theorem mask_value_unknown_mode (v : DbVal) (mt : String)
    (h1 : mt ≠ "partial") (h2 : mt ≠ "full") :
    mask_value (some v) mt = some (.str (dbValStr v)) := by
  simp only [mask_value, maskChars, beq_eq_false_iff_ne.mpr h1,
    beq_eq_false_iff_ne.mpr h2, Bool.false_eq_true, if_false]

/-- C10 (witness): an unrecognized mode "redact" leaves the value
"secret" fully unmasked. -/
theorem mask_value_unknown_mode_witness :
    mask_value (some (.str "secret")) "redact" = some (.str "secret") :=
  mask_value_unknown_mode (.str "secret") "redact" (by decide) (by decide)

/-- C4 (counterexample): full masking of the value "*" produces the
string "*" itself, which has the claimed length but certainly contains a
character from the original value — the "contains no characters from s"
half of the claim fails whenever the value itself contains the mask
character. -/
theorem mask_full_shares_char_cex :
    mask_value (some (.str "*")) "full" = some (.str "*") ∧
    ('*' ∈ ("*" : String).data ∧
      '*' ∈ maskChars ("*" : String).data "full") := by
  refine ⟨by decide, by decide, by decide⟩

/-- C4 (amended): for every non-None value, full masking preserves the
length of str(s) and produces only the mask character (so it shares no
character with s other than possibly the mask character itself), and
partial masking keeps exactly the last four characters, masking all
preceding ones, except that a value of length at most four is masked
entirely. -/
theorem mask_value_laws_amended (v : DbVal) :
    (maskChars (dbValStr v).data "full").length = (dbValStr v).data.length ∧
    (∀ ch, ch ∈ maskChars (dbValStr v).data "full" → ch = '*') ∧
    maskChars (dbValStr v).data "partial" =
      (if (dbValStr v).data.length ≤ 4 then
        List.replicate (dbValStr v).data.length '*'
       else
        List.replicate ((dbValStr v).data.length - 4) '*' ++
          (dbValStr v).data.drop ((dbValStr v).data.length - 4)) := by
  refine ⟨?_, ?_, ?_⟩
  · simp [maskChars]
  · intro ch hch
    simp only [maskChars, if_pos] at hch
    · exact List.eq_of_mem_replicate (by simpa using hch)
  · simp [maskChars]

/-- C4 (witness for the amended claim): the masking laws evaluated at the
value "hello": full masking has length 5, yields only stars, and partial
masking keeps exactly the trailing "ello". -/
theorem mask_value_laws_amended_witness :
    (maskChars (dbValStr (DbVal.str "hello")).data "full").length = 5 ∧
    ('*' ∈ maskChars (dbValStr (DbVal.str "hello")).data "full" →
      ('*' : Char) = '*') ∧
    maskChars (dbValStr (DbVal.str "hello")).data "partial" =
      ['*', 'e', 'l', 'l', 'o'] := by
  have h := mask_value_laws_amended (DbVal.str "hello")
  exact ⟨by rw [h.1]; decide, fun hm => h.2.1 '*' hm, by rw [h.2.2]; decide⟩

/-- The early-return shape `if b: return True ... return c` is a boolean
disjunction. -/
theorem ite_true_or (b c : Bool) : (if b then true else c) = (b || c) := by
  cases b <;> simp

/-- C3: for every known principal, check_access grants a resource (a
table, or a table-column pair with a non-empty column name) exactly when
the principal is an admin or a grant row exists for exactly that resource
or for the resource's table with a NULL column; matching is exact
record equality, never a partial string match. -/
theorem check_access_iff_grants (env : Env) (username : String)
    (u : UserRec) (hu : get_user env username = some u) (t : String)
    (c : Option String) (hc : c ≠ some "") :
    check_access env username t c = true ↔
      (u.role = "admin" ∨
        ∃ g ∈ env.grants, g.userId = u.userId ∧ g.tableName = t ∧
          (g.columnName = c ∨ g.columnName = none)) := by
  simp only [check_access, hu]
  by_cases hadm : u.role = "admin"
  · simp [hadm]
  · have hadm2 : (u.role == "admin") = false := beq_eq_false_iff_ne.mpr hadm
    simp only [hadm2, Bool.false_eq_true, if_false, ite_true_or]
    cases c with
    | none =>
      simp only [Bool.false_or, List.any_eq_true, grantMatches,
        Bool.and_eq_true, beq_iff_eq]
      constructor
      · rintro ⟨g, hg, ⟨h1, h2⟩, h3⟩
        exact Or.inr ⟨g, hg, h1, h2, Or.inl h3⟩
      · rintro (h | ⟨g, hg, h1, h2, h3 | h3⟩)
        · exact absurd h hadm
        · exact ⟨g, hg, ⟨h1, h2⟩, h3⟩
        · exact ⟨g, hg, ⟨h1, h2⟩, h3⟩
    | some c2 =>
      have hc2 : (c2 == "") = false :=
        beq_eq_false_iff_ne.mpr (fun h => hc (by rw [h]))
      simp only [hc2, Bool.false_eq_true, if_false, Bool.or_eq_true,
        List.any_eq_true, grantMatches, Bool.and_eq_true, beq_iff_eq]
      constructor
      · rintro (⟨g, hg, ⟨h1, h2⟩, h3⟩ | ⟨g, hg, ⟨h1, h2⟩, h3⟩)
        · exact Or.inr ⟨g, hg, h1, h2, Or.inl h3⟩
        · exact Or.inr ⟨g, hg, h1, h2, Or.inr h3⟩
      · rintro (h | ⟨g, hg, h1, h2, h3 | h3⟩)
        · exact absurd h hadm
        · exact Or.inl ⟨g, hg, ⟨h1, h2⟩, h3⟩
        · exact Or.inr ⟨g, hg, ⟨h1, h2⟩, h3⟩

/-- C3 (witness): bob the analyst holds only a table-wide grant on docs,
and the law grants him docs.title through that table-wide row. -/
theorem check_access_iff_grants_witness :
    check_access envTableGrant "bob" "docs" (some "title") = true :=
  (check_access_iff_grants envTableGrant "bob" ⟨2, "bob", "analyst"⟩ rfl
      "docs" (some "title") (by decide)).mpr
    (Or.inr ⟨⟨1, 2, "docs", none, "read", 1⟩, by decide, rfl, rfl,
      Or.inr rfl⟩)

/-- A row whose lookups all succeed transforms without raising. -/
theorem transformRow_ok (env : Env) (username : String)
    (tables : List String) (row : Row) (cols : List String)
    (h : ∀ c ∈ cols, (lookupCell row c).isSome) :
    ∃ out, transformRow env username tables row cols = .ok out := by
  induction cols with
  | nil => exact ⟨[], rfl⟩
  | cons c cs ih =>
    obtain ⟨v, hv⟩ := Option.isSome_iff_exists.mp
      (h c (List.mem_cons_self c cs))
    obtain ⟨out, hout⟩ := ih (fun c2 hc2 => h c2 (List.mem_cons_of_mem c hc2))
    exact ⟨(c, transformCell env username tables c v) :: out,
      by simp [transformRow, hv, hout]⟩

/-- A result set whose rows all transform successfully transforms as a
whole, preserving the number of rows. -/
theorem transformRows_ok (env : Env) (username : String)
    (tables : List String) (cols : List String) (rows : List Row)
    (h : ∀ r ∈ rows, ∀ c ∈ cols, (lookupCell r c).isSome) :
    ∃ outs, transformRows env username tables cols rows = .ok outs ∧
      outs.length = rows.length := by
  induction rows with
  | nil => exact ⟨[], rfl, rfl⟩
  | cons r rs ih =>
    obtain ⟨out, hout⟩ := transformRow_ok env username tables r cols
      (h r (List.mem_cons_self r rs))
    obtain ⟨outs, houts, hlen⟩ :=
      ih (fun r2 hr2 => h r2 (List.mem_cons_of_mem r hr2))
    refine ⟨out :: outs, ?_, by simp [hlen]⟩
    simp [transformRows, hout, houts]

/-- C7: a secured cell whose decryption fails is replaced by the
"[decryption error]" sentinel rather than raising; and a run whose result
rows all contain the expected keys transforms every row — the gateway
returns success with one output row per input row, so a failing cell
never aborts the rest of the result set. -/
theorem decryption_failure_sentinel_continues :
    (∀ (env : Env) (username : String) (tables : List String) (c : String)
        (v : Cell) (t : String) (e : String),
      firstEncTable env tables c = some t →
      check_access env username t (some c) = true →
      decrypt_value env v t c = .error e →
      transformCell env username tables c v =
        some (.str "[decryption error]")) ∧
    (∀ (env : Env) (username : String) (toks : List Tok) (rows : List Row),
      (gatewayValidation env username toks).allowed = true →
      env.dbOutcome = .ok rows →
      rows ≠ [] →
      (∀ r ∈ rows, ∀ c ∈ columnNamesOf rows, (lookupCell r c).isSome) →
      (execute_query env username (some toks)).result.success = true ∧
      (execute_query env username (some toks)).result.data.length =
        rows.length) := by
  constructor
  · intro env username tables c v t e h1 h2 h3
    simp [transformCell, h1, h2, h3]
  · intro env username toks rows hv hdb hne hlook
    obtain ⟨outs, houts, hlen⟩ := transformRows_ok env username
      (parse_query toks).tables (columnNamesOf rows) rows hlook
    have hemp : rows.isEmpty = false := by
      cases rows with
      | nil => exact absurd rfl hne
      | cons r rs => rfl
    simp only [execute_query, hv, if_true, hdb, hemp, Bool.false_eq_true,
      if_false, houts]
    exact ⟨trivial, hlen⟩

/-- C7 (witness): carol's run over table t returns both rows, with the
tampered secured cell of the first row replaced by the sentinel. -/
theorem decryption_failure_sentinel_continues_witness :
    transformCell envDecFail "carol" ["t"] "c"
      (some (.blob ⟨999, "x"⟩)) = some (.str "[decryption error]") ∧
    ((execute_query envDecFail "carol"
        (some tokensSelectCD)).result.success = true ∧
      (execute_query envDecFail "carol"
        (some tokensSelectCD)).result.data.length = 2) :=
  ⟨decryption_failure_sentinel_continues.1 envDecFail "carol" ["t"] "c"
      (some (.blob ⟨999, "x"⟩)) "t" "InvalidToken" rfl (by decide) rfl,
   decryption_failure_sentinel_continues.2 envDecFail "carol"
      tokensSelectCD
      [[("c", some (.blob ⟨999, "x"⟩)), ("d", some (.str "plain"))],
       [("c", none), ("d", some (.str "y"))]]
      (by decide) rfl (by decide) (by decide)⟩

/-- When a predicate finds a first witness and selects at most one
element overall, the selection is exactly that witness. -/
theorem filter_eq_singleton_of_find? {α : Type} {p : α → Bool}
    {l : List α} {a : α} (hf : l.find? p = some a)
    (hc : (l.filter p).length ≤ 1) : l.filter p = [a] := by
  induction l with
  | nil => simp at hf
  | cons b l ih =>
    cases hpb : p b with
    | true =>
      rw [List.find?_cons_of_pos l hpb] at hf
      injection hf with hab
      rw [List.filter_cons_of_pos hpb] at hc ⊢
      have hnil : List.filter p l = [] := by
        rw [← List.length_eq_zero]
        simp only [List.length_cons] at hc
        omega
      rw [hnil, hab]
    | false =>
      rw [List.find?_cons_of_neg l (by simp [hpb])] at hf
      rw [List.filter_cons_of_neg (by simp [hpb])] at hc ⊢
      exact ih hf hc

/-- C9: for every existing principal, if at most one access_control row
matches the (principal, table, column) tuple, then after grant_access
exactly one row matches it, carrying the newly granted level and the
current timestamp — repeated grants upsert in place and never create
duplicate rows. -/
theorem grant_access_upsert (env : Env) (username : String) (u : UserRec)
    (t : String) (col : Option String) (lvl : String)
    (hu : get_user env username = some u)
    (hinv : (env.grants.filter (grantMatches u.userId t col)).length ≤ 1) :
    ∃ env2, grant_access env username t col lvl = some env2 ∧
      (env2.grants.filter (grantMatches u.userId t col)).map
        (fun g => (g.accessLevel, g.grantedAt)) = [(lvl, env.now)] := by
  simp only [grant_access, hu]
  cases hf : env.grants.find? (grantMatches u.userId t col) with
  | none =>
    refine ⟨_, rfl, ?_⟩
    have hnil : env.grants.filter (grantMatches u.userId t col) = [] :=
      List.filter_eq_nil_iff.mpr (List.find?_eq_none.mp hf)
    rw [List.filter_append, hnil]
    simp [grantMatches]
  | some g0 =>
    refine ⟨_, rfl, ?_⟩
    have hfil : env.grants.filter (grantMatches u.userId t col) = [g0] :=
      filter_eq_singleton_of_find? hf hinv
    have hpoint : ∀ x ∈ env.grants,
        (grantMatches u.userId t col ∘ (fun g : GrantRec =>
          if g.accessId == g0.accessId then
            { g with accessLevel := lvl, grantedAt := env.now }
          else g)) x = grantMatches u.userId t col x := by
      intro x hx
      by_cases hxid : (x.accessId == g0.accessId) = true
      · simp [Function.comp, hxid, grantMatches]
      · simp [Function.comp, hxid]
    rw [List.filter_map, List.filter_congr hpoint, hfil]
    simp

/-- C9 (witness): re-granting dave's existing read grant on docs.title at
level write leaves exactly one matching row, now at level write with the
refreshed timestamp 50. -/
theorem grant_access_upsert_witness :
    ∃ env2, grant_access envGrantW "dave" "docs" (some "title") "write"
        = some env2 ∧
      (env2.grants.filter (grantMatches 1 "docs" (some "title"))).map
        (fun g => (g.accessLevel, g.grantedAt)) = [("write", 50)] :=
  grant_access_upsert envGrantW "dave" ⟨1, "dave", "analyst"⟩ "docs"
    (some "title") "write" rfl (by decide)
